import Mathlib

/-!
# Verification of `ui/src/virtualconsole/vcmatrixproperties.cpp`

A shallow embedding of the `VCMatrixProperties` dialog from QLC+: the data
model (`VCMatrixControl`, `QLCInputSource`, the host `VCMatrix`), the editor's
working state, and every slot of the dialog as a pure state transformer.
UI events are reified as an `Op` inductive and a session is a list of `Op`s
applied to the state produced by the constructor.

Modelling conventions:
* Qt value types (`QString`, `QColor`, `QKeySequence`) become `String`, `Nat`
  (an RGB value; the color dialog's "invalid color" outcome is `Option.none`),
  and `Option String`.
* Machine integers (`quint32`, `quint8`) are modelled as `Nat`; the spec
  describes ids as small positive integers and pages/channels as small, so
  no wrap-around is reachable in the quantified ranges of the claims.
* Writes to display-only widgets (the universe/channel name line edits filled
  by `updateSliderInputSource` / `updateControlInputSource`) are omitted:
  they read external resolution state and feed nothing back into the model.
* Pointer cells (`m_sliderInputSource`, `m_inputSource`) become `Option`
  values; `delete p; p = new QLCInputSource(u, ch)` becomes replacing the
  optional value.
-/

namespace QLCPlus

/-- The `VCMatrixControl::ControlType` enumeration (from the switch in
`updateTree`): StartColor, EndColor, Animation, Image, Text. -/
inductive ControlType
  | StartColor
  | EndColor
  | Animation
  | Image
  | Text
deriving DecidableEq, Repr

/-- A `QLCInputSource(universe, channel)` value: one external-input binding. -/
structure QLCInputSource where
  m_universe : Nat
  m_channel : Nat
deriving DecidableEq, Repr

/-- One custom control of the matrix, mirroring the `VCMatrixControl` fields
used by `vcmatrixproperties.cpp`: id, type, color, resource string, optional
input source and optional key sequence. -/
structure VCMatrixControl where
  m_id : Nat
  m_type : ControlType
  m_color : Nat
  m_resource : String
  m_inputSource : Option QLCInputSource
  m_keySequence : Option String
deriving DecidableEq, Repr

/-- Modelled from the spec: the `VCMatrixControl(id)` constructor (the class
header is not part of this submission). Fields other than the id take inert
defaults; every creation path in the dialog overwrites the relevant fields
immediately after construction. -/
def VCMatrixControl.fresh (id : Nat) : VCMatrixControl :=
  { m_id := id
    m_type := ControlType.StartColor
    m_color := 0
    m_resource := ""
    m_inputSource := none
    m_keySequence := none }

/-- Modelled from the spec: the host `VCMatrix` object's committed state, as
read by the dialog's constructor and written by `accept` (caption, function
id, instant-changes flag, slider input binding, custom-control list, page
number and the widget's own id). -/
structure VCMatrix where
  caption : String
  function : Nat
  instantChanges : Bool
  inputSource : Option QLCInputSource
  customControls : List VCMatrixControl
  page : Nat
  id : Nat
deriving DecidableEq, Repr

/-- Modelled from the spec: the document, reduced to the one query the claims
need — resolving a function id to a function (here: its name). -/
structure Doc where
  functions : List (Nat × String)
deriving DecidableEq, Repr

/-- `Doc::function(fid)`: `some name` when the id resolves, `none` otherwise
(the C++ call returns `NULL` for an unknown id). -/
def Doc.function (d : Doc) (fid : Nat) : Option String :=
  d.functions.lookup fid

/-- `Function::invalidId()`, the "no function" sentinel (`UINT_MAX`). -/
def Function.invalidId : Nat := 4294967295

/-- The free comparator `compareControlsID` at the top of the file:
`ctl1->m_id < ctl2->m_id`. -/
def compareControlsID (ctl1 ctl2 : VCMatrixControl) : Bool :=
  decide (ctl1.m_id < ctl2.m_id)

/-- The non-strict order induced by the strict comparator: `qSort` with
`compareControlsID` produces a permutation ordered by this relation
(element `a` may precede `b` iff `¬ compareControlsID b a`). -/
def controlLE (ctl1 ctl2 : VCMatrixControl) : Prop :=
  compareControlsID ctl2 ctl1 = false

instance : DecidableRel controlLE := fun c1 c2 =>
  inferInstanceAs (Decidable (compareControlsID c2 c1 = false))

instance : IsTotal VCMatrixControl controlLE :=
  ⟨by
    intro a b
    simp only [controlLE, compareControlsID, decide_eq_false_iff_not, Nat.not_lt]
    omega⟩

instance : IsTrans VCMatrixControl controlLE :=
  ⟨by
    intro a b c
    simp only [controlLE, compareControlsID, decide_eq_false_iff_not, Nat.not_lt]
    omega⟩

/-- `qSort(m_controls.begin(), m_controls.end(), compareControlsID)`:
a comparison sort; modelled as insertion sort by the induced non-strict
order (any correct sort yields a permutation sorted this way). -/
def qSortControls (l : List VCMatrixControl) : List VCMatrixControl :=
  List.insertionSort controlLE l

/-- `QString::simplified()`: strip leading/trailing whitespace and collapse
internal whitespace runs to single spaces, implemented structurally over the
character list. -/
def simplified (s : String) : String :=
  ⟨List.intercalate [' ']
    ((s.data.splitOnP (fun c => c.isWhitespace)).filter (fun w => !w.isEmpty))⟩

/-- Substring occurrence test on character lists, used for
`QString::contains`. -/
def containsSub (hay nee : List Char) : Bool :=
  match hay with
  | [] => nee.isEmpty
  | _ :: rest => nee.isPrefixOf hay || containsSub rest nee

/-- `QString::contains(t)` on `s`. -/
def qContains (s t : String) : Bool :=
  containsSub s.data t.data

/-- The working state of the `VCMatrixProperties` dialog: the document and
matrix references, the widgets the code reads back (`m_nameEdit`,
`m_functionEdit`, `m_instantCheck`, the tree selection), the working copies
(`m_function`, `m_sliderInputSource`, `m_controls`, `m_lastAssignedID`) and
the two auto-detect signal connections as subscription flags. -/
structure VCMatrixProperties where
  m_doc : Doc
  m_matrix : VCMatrix
  m_lastAssignedID : Nat
  m_nameEdit : String
  m_functionEdit : String
  m_instantCheck : Bool
  m_function : Nat
  m_sliderInputSource : Option QLCInputSource
  m_controls : List VCMatrixControl
  treeSelection : Option Nat
  sliderAutoDetect : Bool
  controlAutoDetect : Bool
deriving DecidableEq, Repr

namespace VCMatrixProperties

/-- `VCMatrixProperties::slotSetFunction(fid)`: store the working function id;
if the document resolves it, show the function's name and — when the
simplified display name contains the matrix's own numeric id as a substring —
overwrite the display name with the function's name; otherwise show the
"No function" placeholder. -/
def slotSetFunction (s : VCMatrixProperties) (fid : Nat) : VCMatrixProperties :=
  match s.m_doc.function fid with
  | none => { s with m_function := fid, m_functionEdit := "No function" }
  | some name =>
    if qContains (simplified s.m_nameEdit) (toString s.m_matrix.id) then
      { s with m_function := fid, m_functionEdit := name, m_nameEdit := name }
    else
      { s with m_function := fid, m_functionEdit := name }

/-- The constructor `VCMatrixProperties::VCMatrixProperties(matrix, doc)`:
seed the name field from the caption, run `slotSetFunction` on the matrix's
current function, load the instant-changes flag, take the slider input
binding, deep-copy the custom controls while tracking the maximum id into
`m_lastAssignedID` (initialised to 0), and sort the working list by id. -/
def init (matrix : VCMatrix) (doc : Doc) : VCMatrixProperties :=
  let s0 : VCMatrixProperties :=
    { m_doc := doc
      m_matrix := matrix
      m_lastAssignedID := 0
      m_nameEdit := matrix.caption
      m_functionEdit := ""
      m_instantCheck := false
      m_function := 0
      m_sliderInputSource := none
      m_controls := []
      treeSelection := none
      sliderAutoDetect := false
      controlAutoDetect := false }
  let s1 := slotSetFunction s0 matrix.function
  { s1 with
    m_instantCheck := matrix.instantChanges
    m_sliderInputSource := matrix.inputSource
    m_controls := qSortControls matrix.customControls
    m_lastAssignedID :=
      matrix.customControls.foldl
        (fun acc control => if control.m_id > acc then control.m_id else acc) 0 }

/-- `slotAttachFunction`: run the function-selection dialog; on a confirmed
non-empty selection (`some fid`) forward to `slotSetFunction`. -/
def slotAttachFunction (s : VCMatrixProperties) (sel : Option Nat) : VCMatrixProperties :=
  match sel with
  | none => s
  | some fid => slotSetFunction s fid

/-- `slotAutoDetectSliderInputToggled(checked)`: connect/disconnect the
document's `inputValueChanged` signal to the slider slot; modelled as a
subscription flag. -/
def slotAutoDetectSliderInputToggled (s : VCMatrixProperties) (checked : Bool) : VCMatrixProperties :=
  { s with sliderAutoDetect := checked }

/-- `slotSliderInputValueChanged(universe, channel)`: replace the slider
binding with a fresh source whose channel folds the matrix page into the
high bits: `(m_matrix->page() << 16) | channel`. -/
def slotSliderInputValueChanged (s : VCMatrixProperties) (uni ch : Nat) : VCMatrixProperties :=
  { s with m_sliderInputSource :=
             some { m_universe := uni, m_channel := (s.m_matrix.page <<< 16) ||| ch } }

/-- `slotChooseSliderInputClicked`: run the input-channel dialog; on confirm
replace the slider binding with the picker's raw universe/channel pair. -/
def slotChooseSliderInputClicked (s : VCMatrixProperties) (res : Option (Nat × Nat)) : VCMatrixProperties :=
  match res with
  | none => s
  | some (uni, ch) =>
    { s with m_sliderInputSource := some { m_universe := uni, m_channel := ch } }

/-- `updateTree()`: the tree widget is cleared and rebuilt from `m_controls`;
the rebuilt rows carry no selection, so the selection state resets. -/
def updateTree (s : VCMatrixProperties) : VCMatrixProperties :=
  { s with treeSelection := none }

/-- The body of `getSelectedControl`'s lookup loop: the first control whose
id equals the given id. -/
def findControl (l : List VCMatrixControl) (id : Nat) : Option VCMatrixControl :=
  l.find? (fun control => control.m_id == id)

/-- `getSelectedControl()`: the control whose id matches the selected tree
row, or `none` when nothing is selected (or the id matches no control). -/
def getSelectedControl (s : VCMatrixProperties) : Option VCMatrixControl :=
  match s.treeSelection with
  | none => none
  | some cid => findControl s.m_controls cid

/-- `VCMatrixProperties::addControl(control)`: append to the working list. -/
def addControl (s : VCMatrixProperties) (control : VCMatrixControl) : VCMatrixProperties :=
  { s with m_controls := s.m_controls ++ [control] }

/-- The loop of `VCMatrixProperties::removeControl(id)`: scan the list and
remove the first element with a matching id, then stop; no match removes
nothing. -/
def removeControlFromList (l : List VCMatrixControl) (id : Nat) : List VCMatrixControl :=
  match l with
  | [] => []
  | control :: rest =>
    if control.m_id == id then rest else control :: removeControlFromList rest id

/-- `VCMatrixProperties::removeControl(id)` on the working state. -/
def removeControl (s : VCMatrixProperties) (id : Nat) : VCMatrixProperties :=
  { s with m_controls := removeControlFromList s.m_controls id }

/-- The shared tail of the four add slots: `++m_lastAssignedID`, build the
control, `addControl`, `updateTree`. -/
def pushControl (s : VCMatrixProperties) (control : VCMatrixControl) : VCMatrixProperties :=
  updateTree (addControl { s with m_lastAssignedID := s.m_lastAssignedID + 1 } control)

/-- `slotAddStartColorClicked`: color dialog result (`none` = cancelled or
invalid color); on a valid color create a StartColor control with the next
id. -/
def slotAddStartColorClicked (s : VCMatrixProperties) (col : Option Nat) : VCMatrixProperties :=
  match col with
  | none => s
  | some c =>
    pushControl s
      { VCMatrixControl.fresh (s.m_lastAssignedID + 1) with
          m_type := ControlType.StartColor, m_color := c }

/-- `slotAddEndColorClicked`: as for the start color, with kind EndColor. -/
def slotAddEndColorClicked (s : VCMatrixProperties) (col : Option Nat) : VCMatrixProperties :=
  match col with
  | none => s
  | some c =>
    pushControl s
      { VCMatrixControl.fresh (s.m_lastAssignedID + 1) with
          m_type := ControlType.EndColor, m_color := c }

/-- `slotAddAnimationClicked`: item dialog result (`none` = cancelled);
`if (ok && !text.isEmpty())` create an Animation control carrying the chosen
preset name. -/
def slotAddAnimationClicked (s : VCMatrixProperties) (res : Option String) : VCMatrixProperties :=
  match res with
  | none => s
  | some text =>
    if text.isEmpty then s
    else
      pushControl s
        { VCMatrixControl.fresh (s.m_lastAssignedID + 1) with
            m_type := ControlType.Animation, m_resource := text }

/-- `slotAddTextClicked`: text dialog result (`none` = cancelled);
`if (ok && !text.isEmpty())` create a Text control carrying the entered
text. The check is plain `isEmpty` — the text is not trimmed. -/
def slotAddTextClicked (s : VCMatrixProperties) (res : Option String) : VCMatrixProperties :=
  match res with
  | none => s
  | some text =>
    if text.isEmpty then s
    else
      pushControl s
        { VCMatrixControl.fresh (s.m_lastAssignedID + 1) with
            m_type := ControlType.Text, m_resource := text }

/-- `slotRemoveClicked`: no-op without a selection; otherwise remove the
selected id and refresh the tree. -/
def slotRemoveClicked (s : VCMatrixProperties) : VCMatrixProperties :=
  match s.treeSelection with
  | none => s
  | some cid => updateTree (removeControl s cid)

/-- `slotAutoDetectControlInputToggled(checked)`: connect/disconnect the
document's `inputValueChanged` signal to the per-control slot. -/
def slotAutoDetectControlInputToggled (s : VCMatrixProperties) (checked : Bool) : VCMatrixProperties :=
  { s with controlAutoDetect := checked }

/-- Replace the first control with the given id by `f` of it, leaving the
rest untouched (the C++ slot mutates the object `getSelectedControl`
returned, which is the first id match in `m_controls`). -/
def updateFirstControl (l : List VCMatrixControl) (id : Nat)
    (f : VCMatrixControl → VCMatrixControl) : List VCMatrixControl :=
  match l with
  | [] => []
  | control :: rest =>
    if control.m_id == id then f control :: rest
    else control :: updateFirstControl rest id f

/-- `slotControlInputValueChanged(universe, channel)`: no-op without a
selected control; otherwise replace the selected control's input source with
a fresh source at `(m_matrix->page() << 16) | channel`. -/
def slotControlInputValueChanged (s : VCMatrixProperties) (uni ch : Nat) : VCMatrixProperties :=
  match getSelectedControl s with
  | none => s
  | some control =>
    { s with m_controls :=
        updateFirstControl s.m_controls control.m_id (fun c =>
          { c with m_inputSource :=
                     some { m_universe := uni, m_channel := (s.m_matrix.page <<< 16) ||| ch } }) }

/-- `slotChooseControlInputClicked`: on a confirmed picker result and a
selected control, store the picker's raw universe/channel pair on it. -/
def slotChooseControlInputClicked (s : VCMatrixProperties) (res : Option (Nat × Nat)) : VCMatrixProperties :=
  match res with
  | none => s
  | some (uni, ch) =>
    match getSelectedControl s with
    | none => s
    | some control =>
      { s with m_controls :=
          updateFirstControl s.m_controls control.m_id (fun c =>
            { c with m_inputSource := some { m_universe := uni, m_channel := ch } }) }

/-- `slotAttachKey`: on a selected control and a confirmed hotkey dialog,
store the chosen key sequence on the control. -/
def slotAttachKey (s : VCMatrixProperties) (res : Option String) : VCMatrixProperties :=
  match getSelectedControl s with
  | none => s
  | some control =>
    match res with
    | none => s
    | some key =>
      { s with m_controls :=
          updateFirstControl s.m_controls control.m_id (fun c =>
            { c with m_keySequence := some key }) }

/-- `slotDetachKey`: on a selected control, clear its key sequence. -/
def slotDetachKey (s : VCMatrixProperties) : VCMatrixProperties :=
  match getSelectedControl s with
  | none => s
  | some control =>
    { s with m_controls :=
        updateFirstControl s.m_controls control.m_id (fun c =>
          { c with m_keySequence := none }) }

/-- `VCMatrixProperties::accept()`: write the working name, function id and
instant-changes flag to the matrix, write the slider input source, then
`resetCustomControls` followed by `addCustomControl` for each working control
in list order — i.e. replace the matrix's control collection with the
working list. The `VCMatrix` setters are not in this submission and are
modelled from the spec as plain field writes. The dialog object itself is
returned unchanged: the method body performs no signal disconnection. -/
def accept (s : VCMatrixProperties) : VCMatrixProperties × VCMatrix :=
  (s,
   { s.m_matrix with
      caption := s.m_nameEdit
      function := s.m_function
      instantChanges := s.m_instantCheck
      inputSource := s.m_sliderInputSource
      customControls := s.m_controls })

/-- `VCMatrixProperties::~VCMatrixProperties()`: the destructor body is
empty — in particular it performs no signal disconnection. -/
def destructorEffect (s : VCMatrixProperties) : VCMatrixProperties := s

end VCMatrixProperties

/-- A user-interface event of the dialog. Dialog-valued interactions carry
the child dialog's outcome (`none` = cancelled / invalid). A hardware input
notification is a single event; it reaches whichever of the two auto-detect
slots is currently connected. -/
inductive Op
  | attachFunction (sel : Option Nat)
  | detachFunction
  | editName (text : String)
  | setInstant (checked : Bool)
  | autoDetectSliderToggled (checked : Bool)
  | chooseSliderInput (res : Option (Nat × Nat))
  | addStartColor (col : Option Nat)
  | addEndColor (col : Option Nat)
  | addAnimation (res : Option String)
  | addText (res : Option String)
  | treeSelect (sel : Option Nat)
  | removeClicked
  | autoDetectControlToggled (checked : Bool)
  | chooseControlInput (res : Option (Nat × Nat))
  | attachKey (res : Option String)
  | detachKey
  | inputValueChanged (uni ch : Nat)
deriving DecidableEq, Repr

open VCMatrixProperties in
/-- Dispatch one UI event to its slot. `detachFunction` is the
`m_detachFunction` button, wired to `slotSetFunction()` with the default
argument `Function::invalidId()`; `editName` / `setInstant` model typing in
the name line edit and toggling the instant-changes checkbox; an
`inputValueChanged` notification runs each connected auto-detect slot. -/
def applyOp (s : VCMatrixProperties) : Op → VCMatrixProperties
  | Op.attachFunction sel => slotAttachFunction s sel
  | Op.detachFunction => slotSetFunction s Function.invalidId
  | Op.editName text => { s with m_nameEdit := text }
  | Op.setInstant checked => { s with m_instantCheck := checked }
  | Op.autoDetectSliderToggled checked => slotAutoDetectSliderInputToggled s checked
  | Op.chooseSliderInput res => slotChooseSliderInputClicked s res
  | Op.addStartColor col => slotAddStartColorClicked s col
  | Op.addEndColor col => slotAddEndColorClicked s col
  | Op.addAnimation res => slotAddAnimationClicked s res
  | Op.addText res => slotAddTextClicked s res
  | Op.treeSelect sel => { s with treeSelection := sel }
  | Op.removeClicked => slotRemoveClicked s
  | Op.autoDetectControlToggled checked => slotAutoDetectControlInputToggled s checked
  | Op.chooseControlInput res => slotChooseControlInputClicked s res
  | Op.attachKey res => slotAttachKey s res
  | Op.detachKey => slotDetachKey s
  | Op.inputValueChanged uni ch =>
    let s1 := if s.sliderAutoDetect then slotSliderInputValueChanged s uni ch else s
    if s1.controlAutoDetect then slotControlInputValueChanged s1 uni ch else s1

/-- Apply a whole session of UI events in order. -/
def applyOps (s : VCMatrixProperties) : List Op → VCMatrixProperties
  | [] => s
  | op :: rest => applyOps (applyOp s op) rest

/-- Whether an event creates a control: an add with a valid payload
(a valid color, or a confirmed non-empty string). Depends only on the event,
not on the state. -/
def opCreatesControl : Op → Bool
  | Op.addStartColor (some _) => true
  | Op.addEndColor (some _) => true
  | Op.addAnimation (some text) => !text.isEmpty
  | Op.addText (some text) => !text.isEmpty
  | _ => false

/-- The ids handed out by `++m_lastAssignedID` along a session, in order. -/
def assignedIds (s : VCMatrixProperties) : List Op → List Nat
  | [] => []
  | op :: rest =>
    (if opCreatesControl op then [s.m_lastAssignedID + 1] else [])
      ++ assignedIds (applyOp s op) rest

/-- The number of controls a session creates. -/
def numCreated (ops : List Op) : Nat :=
  (ops.filter opCreatesControl).length

/-- An add event whose payload the slot rejects: a cancelled or invalid
dialog result (`none`), or an empty string for the animation/text slots. -/
def addRejected : Op → Bool
  | Op.addStartColor none => true
  | Op.addEndColor none => true
  | Op.addAnimation none => true
  | Op.addAnimation (some text) => text.isEmpty
  | Op.addText none => true
  | Op.addText (some text) => text.isEmpty
  | _ => false

/-- The session invariant maintained by the dialog: the working list is
sorted by ascending id, and every id in it is bounded by the running
`m_lastAssignedID` counter. -/
def SessionInv (s : VCMatrixProperties) : Prop :=
  List.Sorted (· ≤ ·) (s.m_controls.map VCMatrixControl.m_id) ∧
  ∀ i ∈ s.m_controls.map VCMatrixControl.m_id, i ≤ s.m_lastAssignedID

/-- A concrete host matrix for witnesses/counterexamples: the user has set a
custom caption that happens to contain the widget's numeric id 3 as a
substring. -/
def exMatrix : VCMatrix :=
  { caption := "Lamp 3"
    function := 0
    instantChanges := false
    inputSource := none
    customControls := []
    page := 2
    id := 3 }

/-- A concrete document with one RGB-matrix-capable function, id 7. -/
def exDoc : Doc := { functions := [(7, "Rainbow")] }

/-- The editor as opened on `exMatrix`. -/
def exState : VCMatrixProperties := VCMatrixProperties.init exMatrix exDoc

/-- `exState` after adding one text control and selecting its row. -/
def exState2 : VCMatrixProperties :=
  applyOps exState [Op.addText (some "hello"), Op.treeSelect (some 1)]

/-- The control `exState2` holds and has selected. -/
def ctlW : VCMatrixControl :=
  { m_id := 1
    m_type := ControlType.Text
    m_color := 0
    m_resource := "hello"
    m_inputSource := none
    m_keySequence := none }

/-- `exState` with slider auto-detect toggled on. -/
def exStateSlider : VCMatrixProperties :=
  applyOp exState (Op.autoDetectSliderToggled true)

/-- A concrete mixed session for the id-assignment witness: two successful
adds around a removal and a rejected add. -/
def exOps : List Op :=
  [Op.addText (some "a"), Op.treeSelect (some 1), Op.removeClicked,
   Op.addStartColor none, Op.addStartColor (some 5)]

end QLCPlus

/-! ## Frame lemmas: no UI event ever writes the host matrix or the document -/

namespace QLCPlus

open VCMatrixProperties

theorem slotSetFunction_m_matrix (s : VCMatrixProperties) (fid : Nat) :
    (slotSetFunction s fid).m_matrix = s.m_matrix := by
  unfold slotSetFunction
  split
  · rfl
  · split <;> rfl

theorem slotControlInputValueChanged_m_matrix (s : VCMatrixProperties) (uni ch : Nat) :
    (slotControlInputValueChanged s uni ch).m_matrix = s.m_matrix := by
  unfold slotControlInputValueChanged
  split <;> rfl

theorem applyOp_m_matrix (s : VCMatrixProperties) (op : Op) :
    (applyOp s op).m_matrix = s.m_matrix := by
  cases op with
  | attachFunction sel =>
    cases sel with
    | none => rfl
    | some fid => exact slotSetFunction_m_matrix s fid
  | detachFunction => exact slotSetFunction_m_matrix s _
  | editName text => rfl
  | setInstant checked => rfl
  | autoDetectSliderToggled checked => rfl
  | chooseSliderInput res =>
    rcases res with _ | ⟨u, c⟩ <;> rfl
  | addStartColor col => rcases col with _ | c <;> rfl
  | addEndColor col => rcases col with _ | c <;> rfl
  | addAnimation res =>
    rcases res with _ | t
    · rfl
    · simp only [applyOp, slotAddAnimationClicked]
      split <;> rfl
  | addText res =>
    rcases res with _ | t
    · rfl
    · simp only [applyOp, slotAddTextClicked]
      split <;> rfl
  | treeSelect sel => rfl
  | removeClicked =>
    simp only [applyOp, slotRemoveClicked]
    split <;> rfl
  | autoDetectControlToggled checked => rfl
  | chooseControlInput res =>
    rcases res with _ | ⟨u, c⟩
    · rfl
    · simp only [applyOp, slotChooseControlInputClicked]
      split <;> rfl
  | attachKey res =>
    simp only [applyOp, slotAttachKey]
    split
    · rfl
    · split <;> rfl
  | detachKey =>
    simp only [applyOp, slotDetachKey]
    split <;> rfl
  | inputValueChanged uni ch =>
    simp only [applyOp]
    repeat' split
    all_goals simp [slotControlInputValueChanged_m_matrix, slotSliderInputValueChanged]

theorem applyOps_m_matrix (ops : List Op) : ∀ s : VCMatrixProperties,
    (applyOps s ops).m_matrix = s.m_matrix := by
  induction ops with
  | nil => intro s; rfl
  | cons op rest ih =>
    intro s
    simp only [applyOps]
    rw [ih, applyOp_m_matrix]

theorem init_m_matrix (m : VCMatrix) (doc : Doc) :
    (VCMatrixProperties.init m doc).m_matrix = m := by
  simp [VCMatrixProperties.init, slotSetFunction_m_matrix]

end QLCPlus

namespace QLCPlus

open VCMatrixProperties

theorem removeControlFromList_spec (l : List VCMatrixControl) (id : Nat) :
    ((∀ c ∈ l, c.m_id ≠ id) ∧ removeControlFromList l id = l) ∨
    (∃ l1 c l2, l = l1 ++ c :: l2 ∧ c.m_id = id ∧ (∀ c' ∈ l1, c'.m_id ≠ id) ∧
      removeControlFromList l id = l1 ++ l2) := by
  induction l with
  | nil => exact Or.inl ⟨by simp, rfl⟩
  | cons c rest ih =>
    by_cases h : c.m_id = id
    · refine Or.inr ⟨[], c, rest, by simp, h, by simp, ?_⟩
      simp [removeControlFromList, h]
    · rcases ih with ⟨hall, heq⟩ | ⟨l1, d, l2, hsplit, hid, hfirst, heq⟩
      · refine Or.inl ⟨?_, ?_⟩
        · intro x hx
          rcases List.mem_cons.mp hx with rfl | hx
          · exact h
          · exact hall x hx
        · simp [removeControlFromList, h, heq]
      · refine Or.inr ⟨c :: l1, d, l2, by simp [hsplit], hid, ?_, ?_⟩
        · intro x hx
          rcases List.mem_cons.mp hx with rfl | hx
          · exact h
          · exact hfirst x hx
        · simp [removeControlFromList, h, heq]

/-- C1: editing operations mutate only the editor's working copy. For every
session — any sequence of add/remove, attach/detach function, attach/detach
key, binding changes, input events — the host matrix's caption, function id,
instant-changes flag, input binding and custom-control list are exactly
their values from before the editor opened; nothing is written unless and
until `accept` runs. Cancelling or closing merely discards the working
state, so the matrix is untouched on those paths. -/
theorem cancel_leaves_matrix_unmodified (m : VCMatrix) (doc : Doc) (ops : List Op) :
    (applyOps (VCMatrixProperties.init m doc) ops).m_matrix.caption = m.caption ∧
    (applyOps (VCMatrixProperties.init m doc) ops).m_matrix.function = m.function ∧
    (applyOps (VCMatrixProperties.init m doc) ops).m_matrix.instantChanges = m.instantChanges ∧
    (applyOps (VCMatrixProperties.init m doc) ops).m_matrix.inputSource = m.inputSource ∧
    (applyOps (VCMatrixProperties.init m doc) ops).m_matrix.customControls = m.customControls := by
  rw [applyOps_m_matrix, init_m_matrix]
  exact ⟨rfl, rfl, rfl, rfl, rfl⟩

/-- C2: `accept` writes the working display name, function id and
instant-changes flag to the matrix, writes the working slider input binding,
and replaces the matrix's whole custom-control collection with the working
list in its current order — for every working state, hence in particular for
working state (name "Foo", function 7, instant true, controls [c1, c2]) the
accepted matrix reports exactly those values with [c1, c2] in order. -/
theorem accept_writes_working_state (s : VCMatrixProperties) :
    (VCMatrixProperties.accept s).2.caption = s.m_nameEdit ∧
    (VCMatrixProperties.accept s).2.function = s.m_function ∧
    (VCMatrixProperties.accept s).2.instantChanges = s.m_instantCheck ∧
    (VCMatrixProperties.accept s).2.inputSource = s.m_sliderInputSource ∧
    (VCMatrixProperties.accept s).2.customControls = s.m_controls :=
  ⟨rfl, rfl, rfl, rfl, rfl⟩

/-- C9 is false as stated: with slider auto-detect still on, the `accept`
exit path (whose body contains no `disconnect`) and the empty destructor
both leave the input subscription active. Counterexample: open the editor on
`exMatrix`, toggle slider auto-detect on, accept — the subscription flag is
still set afterwards, and the destructor body does not clear it either. -/
theorem accept_leaves_subscription_active :
    exStateSlider.sliderAutoDetect = true ∧
    (VCMatrixProperties.accept exStateSlider).1.sliderAutoDetect = true ∧
    (VCMatrixProperties.destructorEffect
        (VCMatrixProperties.accept exStateSlider).1).sliderAutoDetect = true := by
  decide

/-- C9 amended: the editor's own code releases an auto-detect subscription
only when the corresponding auto-detect button is toggled off; `accept` and
the (empty) destructor leave both subscription flags exactly as they were,
so any cleanup on close is left to framework-level object teardown outside
this file. -/
theorem unsubscribe_only_on_toggle (s : VCMatrixProperties) :
    (VCMatrixProperties.accept s).1.sliderAutoDetect = s.sliderAutoDetect ∧
    (VCMatrixProperties.accept s).1.controlAutoDetect = s.controlAutoDetect ∧
    VCMatrixProperties.destructorEffect s = s ∧
    (applyOp s (Op.autoDetectSliderToggled false)).sliderAutoDetect = false ∧
    (applyOp s (Op.autoDetectControlToggled false)).controlAutoDetect = false :=
  ⟨rfl, rfl, rfl, rfl, rfl⟩

/-- C10: `removeControl(id)` removes at most one element — the first element
whose id matches — and when no element has the id the working list is left
completely unchanged (the loop falls through; no error path exists). -/
theorem removeControl_first_match_only (s : VCMatrixProperties) (id : Nat) :
    ((∀ c ∈ s.m_controls, c.m_id ≠ id) ∧
      (VCMatrixProperties.removeControl s id).m_controls = s.m_controls) ∨
    (∃ l1 c l2, s.m_controls = l1 ++ c :: l2 ∧ c.m_id = id ∧
      (∀ c' ∈ l1, c'.m_id ≠ id) ∧
      (VCMatrixProperties.removeControl s id).m_controls = l1 ++ l2) :=
  removeControlFromList_spec s.m_controls id

end QLCPlus

namespace QLCPlus

open VCMatrixProperties

theorem slotSetFunction_m_lastAssignedID (s : VCMatrixProperties) (fid : Nat) :
    (slotSetFunction s fid).m_lastAssignedID = s.m_lastAssignedID := by
  unfold slotSetFunction
  split
  · rfl
  · split <;> rfl

theorem slotControlInputValueChanged_m_lastAssignedID (s : VCMatrixProperties) (uni ch : Nat) :
    (slotControlInputValueChanged s uni ch).m_lastAssignedID = s.m_lastAssignedID := by
  unfold slotControlInputValueChanged
  split <;> rfl

theorem applyOp_m_lastAssignedID (s : VCMatrixProperties) (op : Op) :
    (applyOp s op).m_lastAssignedID =
      s.m_lastAssignedID + (if opCreatesControl op then 1 else 0) := by
  cases op with
  | attachFunction sel =>
    rcases sel with _ | fid <;>
      simp [applyOp, slotAttachFunction, opCreatesControl, slotSetFunction_m_lastAssignedID]
  | detachFunction =>
    simp [applyOp, opCreatesControl, slotSetFunction_m_lastAssignedID]
  | editName text => simp [applyOp, opCreatesControl]
  | setInstant checked => simp [applyOp, opCreatesControl]
  | autoDetectSliderToggled checked =>
    simp [applyOp, opCreatesControl, slotAutoDetectSliderInputToggled]
  | chooseSliderInput res =>
    rcases res with _ | ⟨u, c⟩ <;>
      simp [applyOp, opCreatesControl, slotChooseSliderInputClicked]
  | addStartColor col =>
    rcases col with _ | c <;>
      simp [applyOp, slotAddStartColorClicked, opCreatesControl, pushControl, addControl,
        updateTree]
  | addEndColor col =>
    rcases col with _ | c <;>
      simp [applyOp, slotAddEndColorClicked, opCreatesControl, pushControl, addControl,
        updateTree]
  | addAnimation res =>
    rcases res with _ | t
    · simp [applyOp, slotAddAnimationClicked, opCreatesControl]
    · by_cases h : t.isEmpty <;>
        simp [applyOp, slotAddAnimationClicked, opCreatesControl, pushControl, addControl,
          updateTree, h]
  | addText res =>
    rcases res with _ | t
    · simp [applyOp, slotAddTextClicked, opCreatesControl]
    · by_cases h : t.isEmpty <;>
        simp [applyOp, slotAddTextClicked, opCreatesControl, pushControl, addControl,
          updateTree, h]
  | treeSelect sel => simp [applyOp, opCreatesControl]
  | removeClicked =>
    simp only [applyOp, slotRemoveClicked, opCreatesControl]
    split <;> simp [removeControl, updateTree]
  | autoDetectControlToggled checked =>
    simp [applyOp, opCreatesControl, slotAutoDetectControlInputToggled]
  | chooseControlInput res =>
    rcases res with _ | ⟨u, c⟩
    · simp [applyOp, slotChooseControlInputClicked, opCreatesControl]
    · simp only [applyOp, slotChooseControlInputClicked, opCreatesControl]
      split <;> simp
  | attachKey res =>
    simp only [applyOp, slotAttachKey, opCreatesControl]
    repeat' split
    all_goals simp_all
  | detachKey =>
    simp only [applyOp, slotDetachKey, opCreatesControl]
    split <;> simp
  | inputValueChanged uni ch =>
    simp only [applyOp, opCreatesControl]
    repeat' split
    all_goals
      simp_all [slotControlInputValueChanged_m_lastAssignedID, slotSliderInputValueChanged]

theorem assignedIds_eq_range' (ops : List Op) : ∀ s : VCMatrixProperties,
    assignedIds s ops = List.range' (s.m_lastAssignedID + 1) (numCreated ops) := by
  induction ops with
  | nil => intro s; rfl
  | cons op rest ih =>
    intro s
    cases h : opCreatesControl op with
    | false =>
      have hlast : (applyOp s op).m_lastAssignedID = s.m_lastAssignedID := by
        rw [applyOp_m_lastAssignedID, h]
        simp
      simp [assignedIds, h, ih, hlast, numCreated, List.filter_cons]
    | true =>
      have hlast : (applyOp s op).m_lastAssignedID = s.m_lastAssignedID + 1 := by
        rw [applyOp_m_lastAssignedID, h]
        simp
      simp [assignedIds, h, ih, hlast, numCreated, List.filter_cons, List.range'_succ]

theorem init_m_lastAssignedID_nil (m : VCMatrix) (doc : Doc)
    (h : m.customControls = []) :
    (VCMatrixProperties.init m doc).m_lastAssignedID = 0 := by
  simp [VCMatrixProperties.init, h]

/-- C3: starting from an empty initial list, every successful add receives
`m_lastAssignedID + 1` where the counter is the running maximum of all ids
ever assigned, so the assigned ids of a whole session are exactly
`[1, 2, …, N]` in order — strictly increasing from 1 regardless of kind mix
or interleaved removals — and no id is ever assigned twice; since every
control in a from-empty session carries an assigned id, the id of a removed
control is never reused for a later add. -/
theorem assigned_ids_strictly_increasing (m : VCMatrix) (doc : Doc) (ops : List Op)
    (hEmpty : m.customControls = []) :
    assignedIds (VCMatrixProperties.init m doc) ops = List.range' 1 (numCreated ops) ∧
    (assignedIds (VCMatrixProperties.init m doc) ops).Nodup := by
  have h0 := init_m_lastAssignedID_nil m doc hEmpty
  rw [assignedIds_eq_range', h0]
  refine ⟨rfl, ?_⟩
  exact (List.pairwise_lt_range' 1 (numCreated ops)).imp (fun hab => Nat.ne_of_lt hab)

/-- Witness for C3: a concrete session (add, select, remove, rejected add,
add) on an initially empty matrix assigns ids `[1, 2]`. -/
theorem assigned_ids_strictly_increasing_witness :
    exMatrix.customControls = [] ∧
    (assignedIds (VCMatrixProperties.init exMatrix exDoc) exOps
        = List.range' 1 (numCreated exOps) ∧
      (assignedIds (VCMatrixProperties.init exMatrix exDoc) exOps).Nodup) :=
  ⟨rfl, assigned_ids_strictly_increasing exMatrix exDoc exOps rfl⟩

end QLCPlus

namespace QLCPlus

open VCMatrixProperties

theorem le_foldl_maxID (l : List VCMatrixControl) (a : Nat) :
    a ≤ l.foldl (fun acc control => if control.m_id > acc then control.m_id else acc) a := by
  induction l generalizing a with
  | nil => exact le_refl a
  | cons c rest ih =>
    simp only [List.foldl_cons]
    refine le_trans ?_ (ih _)
    split <;> omega

theorem mem_id_le_foldl_maxID {c : VCMatrixControl} (l : List VCMatrixControl)
    (hc : c ∈ l) (a : Nat) :
    c.m_id ≤ l.foldl (fun acc control => if control.m_id > acc then control.m_id else acc) a := by
  induction l generalizing a with
  | nil => cases hc
  | cons d rest ih =>
    rcases List.mem_cons.mp hc with rfl | hc
    · simp only [List.foldl_cons]
      refine le_trans ?_ (le_foldl_maxID rest _)
      split <;> omega
    · simp only [List.foldl_cons]
      exact ih hc _

theorem controlLE_iff (c1 c2 : VCMatrixControl) :
    controlLE c1 c2 ↔ c1.m_id ≤ c2.m_id := by
  simp [controlLE, compareControlsID, Nat.not_lt]

theorem init_m_controls (m : VCMatrix) (doc : Doc) :
    (VCMatrixProperties.init m doc).m_controls = qSortControls m.customControls := by
  simp [VCMatrixProperties.init]

theorem sessionInv_init (m : VCMatrix) (doc : Doc) :
    SessionInv (VCMatrixProperties.init m doc) := by
  constructor
  · rw [init_m_controls]
    exact List.Pairwise.map VCMatrixControl.m_id
      (fun a b hab => (controlLE_iff a b).mp hab)
      (List.sorted_insertionSort controlLE m.customControls)
  · intro i hi
    rw [init_m_controls] at hi
    rcases List.mem_map.mp hi with ⟨c, hc, rfl⟩
    have hmem : c ∈ m.customControls :=
      (List.perm_insertionSort controlLE m.customControls).subset hc
    simp only [VCMatrixProperties.init]
    exact mem_id_le_foldl_maxID m.customControls hmem 0

theorem updateFirstControl_map_m_id (l : List VCMatrixControl) (id : Nat)
    (f : VCMatrixControl → VCMatrixControl) (hf : ∀ c, (f c).m_id = c.m_id) :
    (updateFirstControl l id f).map VCMatrixControl.m_id = l.map VCMatrixControl.m_id := by
  induction l with
  | nil => rfl
  | cons c rest ih =>
    simp only [updateFirstControl]
    split <;> simp [hf, ih]

theorem removeControlFromList_sublist (l : List VCMatrixControl) (id : Nat) :
    (removeControlFromList l id).Sublist l := by
  induction l with
  | nil => simp [removeControlFromList]
  | cons c rest ih =>
    simp only [removeControlFromList]
    split
    · exact List.sublist_cons_self c rest
    · exact ih.cons₂ c

theorem sessionInv_of_eq {s s' : VCMatrixProperties}
    (hmap : s'.m_controls.map VCMatrixControl.m_id = s.m_controls.map VCMatrixControl.m_id)
    (hlast : s'.m_lastAssignedID = s.m_lastAssignedID) :
    SessionInv s → SessionInv s' := by
  intro h
  refine ⟨hmap ▸ h.1, fun i hi => ?_⟩
  rw [hlast]
  exact h.2 i (hmap ▸ hi)

theorem sessionInv_pushControl (s : VCMatrixProperties) (ctl : VCMatrixControl)
    (hid : ctl.m_id = s.m_lastAssignedID + 1) :
    SessionInv s → SessionInv (pushControl s ctl) := by
  intro ⟨h1, h2⟩
  constructor
  · simp only [pushControl, addControl, updateTree, List.map_append, List.map_cons,
      List.map_nil]
    refine List.pairwise_append.mpr ⟨h1, List.pairwise_singleton _ _, ?_⟩
    intro a ha b hb
    have hb' : b = ctl.m_id := by simpa using hb
    rw [hb', hid]
    exact le_trans (h2 a ha) (Nat.le_succ _)
  · intro i hi
    simp only [pushControl, addControl, updateTree, List.map_append, List.map_cons,
      List.map_nil] at hi ⊢
    rcases List.mem_append.mp hi with hi | hi
    · exact le_trans (h2 i hi) (Nat.le_succ _)
    · have : i = ctl.m_id := by simpa using hi
      omega

theorem slotSetFunction_m_controls (s : VCMatrixProperties) (fid : Nat) :
    (VCMatrixProperties.slotSetFunction s fid).m_controls = s.m_controls := by
  unfold slotSetFunction
  split
  · rfl
  · split <;> rfl

theorem sessionInv_applyOp (s : VCMatrixProperties) (op : Op) :
    SessionInv s → SessionInv (applyOp s op) := by
  intro hInv
  cases op with
  | attachFunction sel =>
    rcases sel with _ | fid
    · exact hInv
    · refine sessionInv_of_eq ?_ (slotSetFunction_m_lastAssignedID s fid) hInv
      show (slotSetFunction s fid).m_controls.map VCMatrixControl.m_id
        = s.m_controls.map VCMatrixControl.m_id
      rw [slotSetFunction_m_controls]
  | detachFunction =>
    refine sessionInv_of_eq ?_ (slotSetFunction_m_lastAssignedID s _) hInv
    show (slotSetFunction s Function.invalidId).m_controls.map VCMatrixControl.m_id
      = s.m_controls.map VCMatrixControl.m_id
    rw [slotSetFunction_m_controls]
  | editName text => exact hInv
  | setInstant checked => exact hInv
  | autoDetectSliderToggled checked => exact hInv
  | chooseSliderInput res =>
    rcases res with _ | ⟨u, c⟩
    · exact hInv
    · exact hInv
  | addStartColor col =>
    rcases col with _ | c
    · exact hInv
    · exact sessionInv_pushControl s
        { VCMatrixControl.fresh (s.m_lastAssignedID + 1) with
            m_type := ControlType.StartColor, m_color := c } rfl hInv
  | addEndColor col =>
    rcases col with _ | c
    · exact hInv
    · exact sessionInv_pushControl s
        { VCMatrixControl.fresh (s.m_lastAssignedID + 1) with
            m_type := ControlType.EndColor, m_color := c } rfl hInv
  | addAnimation res =>
    rcases res with _ | t
    · exact hInv
    · show SessionInv (slotAddAnimationClicked s (some t))
      simp only [slotAddAnimationClicked]
      split
      · exact hInv
      · exact sessionInv_pushControl s
          { VCMatrixControl.fresh (s.m_lastAssignedID + 1) with
              m_type := ControlType.Animation, m_resource := t } rfl hInv
  | addText res =>
    rcases res with _ | t
    · exact hInv
    · show SessionInv (slotAddTextClicked s (some t))
      simp only [slotAddTextClicked]
      split
      · exact hInv
      · exact sessionInv_pushControl s
          { VCMatrixControl.fresh (s.m_lastAssignedID + 1) with
              m_type := ControlType.Text, m_resource := t } rfl hInv
  | treeSelect sel => exact hInv
  | removeClicked =>
    show SessionInv (slotRemoveClicked s)
    unfold slotRemoveClicked
    split
    · exact hInv
    · rename_i cid _
      refine ⟨?_, ?_⟩
      · exact hInv.1.sublist ((removeControlFromList_sublist s.m_controls cid).map _)
      · intro i hi
        exact hInv.2 i
          (((removeControlFromList_sublist s.m_controls cid).map _).subset hi)
  | autoDetectControlToggled checked => exact hInv
  | chooseControlInput res =>
    rcases res with _ | ⟨u, c⟩
    · exact hInv
    · show SessionInv (slotChooseControlInputClicked s (some (u, c)))
      simp only [slotChooseControlInputClicked]
      split
      · exact hInv
      · refine sessionInv_of_eq ?_ ?_ hInv
        · exact updateFirstControl_map_m_id _ _ _ (fun c => rfl)
        · rfl
  | attachKey res =>
    show SessionInv (slotAttachKey s res)
    unfold slotAttachKey
    split
    · exact hInv
    · split
      · exact hInv
      · refine sessionInv_of_eq ?_ ?_ hInv
        · exact updateFirstControl_map_m_id _ _ _ (fun c => rfl)
        · rfl
  | detachKey =>
    show SessionInv (slotDetachKey s)
    unfold slotDetachKey
    split
    · exact hInv
    · refine sessionInv_of_eq ?_ ?_ hInv
      · exact updateFirstControl_map_m_id _ _ _ (fun c => rfl)
      · rfl
  | inputValueChanged uni ch =>
    show SessionInv (applyOp s (Op.inputValueChanged uni ch))
    simp only [applyOp]
    have hslider : SessionInv
        (if s.sliderAutoDetect then slotSliderInputValueChanged s uni ch else s) := by
      split
      · exact hInv
      · exact hInv
    set s1 := if s.sliderAutoDetect then slotSliderInputValueChanged s uni ch else s
      with hs1
    split
    · show SessionInv (slotControlInputValueChanged s1 uni ch)
      unfold slotControlInputValueChanged
      split
      · exact hslider
      · refine sessionInv_of_eq ?_ ?_ hslider
        · exact updateFirstControl_map_m_id _ _ _ (fun c => rfl)
        · rfl
    · exact hslider


theorem sessionInv_applyOps (ops : List Op) : ∀ s : VCMatrixProperties,
    SessionInv s → SessionInv (applyOps s ops) := by
  induction ops with
  | nil => intro s h; exact h
  | cons op rest ih =>
    intro s h
    exact ih _ (sessionInv_applyOp s op h)

/-- C4: the working control list is sorted by ascending id immediately after
initialization (the constructor qSorts the copied list) and stays sorted
after every mutation of the session — each add appends a fresh id strictly
above every id in the list, removal and in-place binding/key updates
preserve the order. -/
theorem controls_sorted_by_id (m : VCMatrix) (doc : Doc) (ops : List Op) :
    List.Sorted (· ≤ ·)
      ((applyOps (VCMatrixProperties.init m doc) ops).m_controls.map
        VCMatrixControl.m_id) :=
  (sessionInv_applyOps ops _ (sessionInv_init m doc)).1

end QLCPlus

namespace QLCPlus

open VCMatrixProperties

/-- C5 is false as stated for whitespace-only text: `slotAddTextClicked`
checks plain `isEmpty` without trimming, so entering `" "` — a string that
is empty after trimming — creates a control and bumps the id counter. -/
theorem addText_whitespace_creates_control :
    simplified " " = "" ∧
    (applyOp exState (Op.addText (some " "))).m_controls.length
      = exState.m_controls.length + 1 ∧
    (applyOp exState (Op.addText (some " "))).m_lastAssignedID
      = exState.m_lastAssignedID + 1 := by
  decide

/-- C5 amended: an add whose payload the code rejects — a cancelled dialog
or invalid color (`none`), or a string that is empty outright (the code
applies no trimming) — creates no control: the working list's length and
the next-id counter are unchanged. -/
theorem rejected_add_leaves_state_unchanged (s : VCMatrixProperties) (op : Op)
    (h : addRejected op = true) :
    (applyOp s op).m_controls.length = s.m_controls.length ∧
    (applyOp s op).m_lastAssignedID = s.m_lastAssignedID := by
  cases op with
  | addStartColor col =>
    rcases col with _ | c
    · exact ⟨rfl, rfl⟩
    · simp [addRejected] at h
  | addEndColor col =>
    rcases col with _ | c
    · exact ⟨rfl, rfl⟩
    · simp [addRejected] at h
  | addAnimation res =>
    rcases res with _ | t
    · exact ⟨rfl, rfl⟩
    · have ht : t.isEmpty = true := by simpa [addRejected] using h
      constructor <;> simp [applyOp, slotAddAnimationClicked, ht]
  | addText res =>
    rcases res with _ | t
    · exact ⟨rfl, rfl⟩
    · have ht : t.isEmpty = true := by simpa [addRejected] using h
      constructor <;> simp [applyOp, slotAddTextClicked, ht]
  | attachFunction sel => simp [addRejected] at h
  | detachFunction => simp [addRejected] at h
  | editName text => simp [addRejected] at h
  | setInstant checked => simp [addRejected] at h
  | autoDetectSliderToggled checked => simp [addRejected] at h
  | chooseSliderInput res => simp [addRejected] at h
  | treeSelect sel => simp [addRejected] at h
  | removeClicked => simp [addRejected] at h
  | autoDetectControlToggled checked => simp [addRejected] at h
  | chooseControlInput res => simp [addRejected] at h
  | attachKey res => simp [addRejected] at h
  | detachKey => simp [addRejected] at h
  | inputValueChanged uni ch => simp [addRejected] at h

/-- Witness for the amended C5: a confirmed but exactly-empty text entry is
a no-op on the concrete opened editor. -/
theorem rejected_add_leaves_state_unchanged_witness :
    addRejected (Op.addText (some "")) = true ∧
    ((applyOp exState (Op.addText (some ""))).m_controls.length
        = exState.m_controls.length ∧
      (applyOp exState (Op.addText (some ""))).m_lastAssignedID
        = exState.m_lastAssignedID) :=
  ⟨rfl, rejected_add_leaves_state_unchanged exState (Op.addText (some "")) rfl⟩

end QLCPlus

namespace QLCPlus

open VCMatrixProperties

theorem lor_shiftLeft_eq_add (p c : Nat) (h : c < 65536) :
    (p <<< 16) ||| c = p * 65536 + c := by
  apply Nat.eq_of_testBit_eq
  intro i
  have h16 : (65536 : Nat) = 2 ^ 16 := by norm_num
  rw [Nat.testBit_or, Nat.testBit_shiftLeft]
  rw [show p * 65536 + c = 2 ^ 16 * p + c by ring]
  rw [Nat.testBit_mul_pow_two_add p (h16 ▸ h) i]
  by_cases hi : 16 ≤ i
  · simp [hi, Nat.not_lt.mpr hi,
      Nat.testBit_lt_two_pow
        (lt_of_lt_of_le (h16 ▸ h) (Nat.pow_le_pow_right (by norm_num) hi))]
  · simp [hi, Nat.lt_of_not_le hi]

theorem findControl_some_id {l : List VCMatrixControl} {cid : Nat}
    {ctl : VCMatrixControl} (h : findControl l cid = some ctl) : ctl.m_id = cid := by
  have := List.find?_some h
  simpa using this

theorem findControl_updateFirstControl (l : List VCMatrixControl) (id : Nat)
    (f : VCMatrixControl → VCMatrixControl) (hf : ∀ c, (f c).m_id = c.m_id) :
    findControl (updateFirstControl l id f) id = (findControl l id).map f := by
  induction l with
  | nil => rfl
  | cons c rest ih =>
    by_cases h : (c.m_id == id) = true
    · simp [findControl, updateFirstControl, h, hf, List.find?_cons] at ih ⊢
    · simp [findControl, updateFirstControl, h, List.find?_cons] at ih ⊢
      exact ih

theorem getSelectedControl_elim {t : VCMatrixProperties} {ctl : VCMatrixControl}
    (hsel : VCMatrixProperties.getSelectedControl t = some ctl) :
    ∃ cid, t.treeSelection = some cid ∧ findControl t.m_controls cid = some ctl := by
  revert hsel
  unfold getSelectedControl
  cases t.treeSelection with
  | none => intro hh; exact absurd hh (by simp)
  | some cid => intro hh; exact ⟨cid, rfl, hh⟩

/-- C6: with matrix page P and raw event channel C < 65536, an auto-detected
binding — the slider's or the selected control's — stores the encoded
channel `(P <<< 16) ||| C` (equal to `P * 65536 + C`: page in the high bits,
raw channel in the low 16 bits), while a binding chosen through the
input-channel picker stores the picker's universe/channel pair unmodified,
with no page folding. -/
theorem page_folding_encoding (s t : VCMatrixProperties) (uni ch u2 c2 : Nat)
    (ctl : VCMatrixControl) (hch : ch < 65536)
    (hsel : VCMatrixProperties.getSelectedControl t = some ctl) :
    (VCMatrixProperties.slotSliderInputValueChanged s uni ch).m_sliderInputSource
        = some { m_universe := uni, m_channel := (s.m_matrix.page <<< 16) ||| ch } ∧
    (s.m_matrix.page <<< 16) ||| ch = s.m_matrix.page * 65536 + ch ∧
    VCMatrixProperties.getSelectedControl
        (VCMatrixProperties.slotControlInputValueChanged t uni ch)
      = some { ctl with m_inputSource := some { m_universe := uni, m_channel := (t.m_matrix.page <<< 16) ||| ch } } ∧
    (VCMatrixProperties.slotChooseSliderInputClicked s
        (some (u2, c2))).m_sliderInputSource
      = some { m_universe := u2, m_channel := c2 } ∧
    VCMatrixProperties.getSelectedControl
        (VCMatrixProperties.slotChooseControlInputClicked t (some (u2, c2)))
      = some { ctl with m_inputSource := some { m_universe := u2, m_channel := c2 } } := by
  obtain ⟨cid, hts, hfind⟩ := getSelectedControl_elim hsel
  have hid : ctl.m_id = cid := findControl_some_id hfind
  subst hid
  refine ⟨rfl, lor_shiftLeft_eq_add _ _ hch, ?_, rfl, ?_⟩
  · simp only [slotControlInputValueChanged, hsel]
    simp only [getSelectedControl, hts]
    rw [findControl_updateFirstControl t.m_controls ctl.m_id
        (fun c => { c with m_inputSource := some { m_universe := uni, m_channel := (t.m_matrix.page <<< 16) ||| ch } })
        (fun c => rfl), hfind]
    rfl
  · simp only [slotChooseControlInputClicked, hsel]
    simp only [getSelectedControl, hts]
    rw [findControl_updateFirstControl t.m_controls ctl.m_id
        (fun c => { c with m_inputSource := some { m_universe := u2, m_channel := c2 } })
        (fun c => rfl), hfind]
    rfl

/-- Witness for C6 on concrete data: page 2, event channel 9 encodes to
`2 * 65536 + 9`; picker channel 17 is stored as is. -/
theorem page_folding_encoding_witness :
    (9 : Nat) < 65536 ∧
    VCMatrixProperties.getSelectedControl exState2 = some ctlW ∧
    ((VCMatrixProperties.slotSliderInputValueChanged exState 4 9).m_sliderInputSource
        = some { m_universe := 4, m_channel := (exState.m_matrix.page <<< 16) ||| 9 } ∧
      (exState.m_matrix.page <<< 16) ||| 9 = exState.m_matrix.page * 65536 + 9 ∧
      VCMatrixProperties.getSelectedControl
          (VCMatrixProperties.slotControlInputValueChanged exState2 4 9)
        = some { ctlW with m_inputSource := some { m_universe := 4, m_channel := (exState2.m_matrix.page <<< 16) ||| 9 } } ∧
      (VCMatrixProperties.slotChooseSliderInputClicked exState
          (some (5, 17))).m_sliderInputSource
        = some { m_universe := 5, m_channel := 17 } ∧
      VCMatrixProperties.getSelectedControl
          (VCMatrixProperties.slotChooseControlInputClicked exState2 (some (5, 17)))
        = some { ctlW with m_inputSource := some { m_universe := 5, m_channel := 17 } }) :=
  ⟨by decide, by decide,
    page_folding_encoding exState exState2 4 9 5 17 ctlW (by decide) (by decide)⟩

/-- C7 is false as stated: the rename condition in `slotSetFunction` is a
substring test (`contains`) on the simplified name, not an equality test.
With matrix id 3 and the user-edited display name "Lamp 3" — a string
different from "3" — attaching function 7 still overwrites the display name
with the function's name "Rainbow". -/
theorem attach_renames_custom_name_with_id_substring :
    exState.m_nameEdit = "Lamp 3" ∧
    toString exState.m_matrix.id = "3" ∧
    exState.m_nameEdit ≠ toString exState.m_matrix.id ∧
    (applyOp exState (Op.attachFunction (some 7))).m_nameEdit = "Rainbow" := by
  decide

/-- C7 amended: when the picked function resolves, attaching it overwrites
the display name with the function's name exactly when the simplified
current display name contains the matrix's own id rendered as text as a
substring; otherwise the display name is untouched. -/
theorem attach_function_autonaming (s : VCMatrixProperties) (fid : Nat)
    (fname : String) (hf : s.m_doc.function fid = some fname) :
    (applyOp s (Op.attachFunction (some fid))).m_nameEdit =
      (if qContains (simplified s.m_nameEdit) (toString s.m_matrix.id) then fname
       else s.m_nameEdit) := by
  show (VCMatrixProperties.slotSetFunction s fid).m_nameEdit = _
  simp only [VCMatrixProperties.slotSetFunction, hf]
  split <;> rfl

/-- Witness for the amended C7 on the concrete editor: "Lamp 3" simplifies
to itself and contains "3", so the name becomes "Rainbow". -/
theorem attach_function_autonaming_witness :
    exState.m_doc.function 7 = some "Rainbow" ∧
    (applyOp exState (Op.attachFunction (some 7))).m_nameEdit =
      (if qContains (simplified exState.m_nameEdit) (toString exState.m_matrix.id)
       then "Rainbow" else exState.m_nameEdit) :=
  ⟨by decide, attach_function_autonaming exState 7 "Rainbow" (by decide)⟩

theorem slotControlInputValueChanged_preserves (s : VCMatrixProperties) (uni ch : Nat) :
    (slotControlInputValueChanged s uni ch).m_sliderInputSource
        = s.m_sliderInputSource ∧
    (slotControlInputValueChanged s uni ch).sliderAutoDetect = s.sliderAutoDetect ∧
    (slotControlInputValueChanged s uni ch).m_matrix = s.m_matrix := by
  unfold slotControlInputValueChanged
  split <;> exact ⟨rfl, rfl, rfl⟩

theorem applyOp_inputValueChanged_slider (s : VCMatrixProperties) (uni ch : Nat)
    (h : s.sliderAutoDetect = true) :
    (applyOp s (Op.inputValueChanged uni ch)).m_sliderInputSource
        = some { m_universe := uni, m_channel := (s.m_matrix.page <<< 16) ||| ch } ∧
    (applyOp s (Op.inputValueChanged uni ch)).sliderAutoDetect = true ∧
    (applyOp s (Op.inputValueChanged uni ch)).m_matrix = s.m_matrix := by
  simp only [applyOp, h, if_true]
  split
  · obtain ⟨h1, h2, h3⟩ :=
      slotControlInputValueChanged_preserves (slotSliderInputValueChanged s uni ch) uni ch
    exact ⟨h1, by rw [h2]; exact h, h3⟩
  · exact ⟨rfl, h, rfl⟩

/-- C8: while slider auto-detect is on, every delivered input event wholly
replaces the binding — after two consecutive events the slider binding
reflects only the second event's universe and encoded channel, with no
contribution from the first. -/
theorem autodetect_last_write_wins (s : VCMatrixProperties) (u1 c1 u2 c2 : Nat)
    (h : s.sliderAutoDetect = true) :
    (applyOps s
        [Op.inputValueChanged u1 c1, Op.inputValueChanged u2 c2]).m_sliderInputSource
      = some { m_universe := u2, m_channel := (s.m_matrix.page <<< 16) ||| c2 } := by
  show (applyOp (applyOp s (Op.inputValueChanged u1 c1))
      (Op.inputValueChanged u2 c2)).m_sliderInputSource = _
  obtain ⟨h1src, h1auto, h1mat⟩ := applyOp_inputValueChanged_slider s u1 c1 h
  obtain ⟨h2src, h2auto, h2mat⟩ :=
    applyOp_inputValueChanged_slider (applyOp s (Op.inputValueChanged u1 c1)) u2 c2 h1auto
  rw [h2src, h1mat]

/-- Witness for C8 on the concrete editor with auto-detect on: after events
(1, 5) then (9, 250), the binding holds (9, page-folded 250). -/
theorem autodetect_last_write_wins_witness :
    exStateSlider.sliderAutoDetect = true ∧
    (applyOps exStateSlider
        [Op.inputValueChanged 1 5, Op.inputValueChanged 9 250]).m_sliderInputSource
      = some { m_universe := 9,
               m_channel := (exStateSlider.m_matrix.page <<< 16) ||| 250 } :=
  ⟨rfl, autodetect_last_write_wins exStateSlider 1 5 9 250 rfl⟩

end QLCPlus
